import Mathlib

/-!
Shallow embedding of the transfer engine of this repository
(`TransferService` in the TypeScript source): the single-attempt
transactional transfer (`initiateTransfer`), the bounded retry wrapper
(`initiateTransferWithRetry`), and the query view (`buildFilter`, `find`).

Modelling conventions:
- The transactional datastore is a pure `LedgerState`; the body of
  `datasource.transaction` is a function returning `Except`: an `.ok`
  result carries the committed state, an `.error` result models a thrown
  exception, in which case the transaction rolls back and the pre-state
  stays observable (`runTransfer`).
- Monetary values are `Int` (JS numbers used as integral amounts).
- External collaborators that are not under the repository sources
  (`AccountService.debitAccount` / `creditAccount`, the `randomstring`
  token generator) are modelled from the spec; each such definition says
  so in its doc comment.
-/

namespace TransferService

/-- An account row: unique identifier and current balance. -/
structure Account where
  id : Nat
  balance : Int
deriving DecidableEq, Repr

/-- A user row as persisted: identifier, unique handle, owning account id. -/
structure UserRow where
  id : Nat
  username : String
  accountId : Nat
deriving DecidableEq, Repr

/-- An identity as returned by the user lookups: the user joined with its
account (the `includeAccount` join of `findByUsername`). -/
structure Identity where
  id : Nat
  username : String
  account : Account
deriving DecidableEq, Repr

/-- The Transfer record constructed and persisted by `initiateTransfer`. -/
structure Transfer where
  sender : Identity
  receiver : Identity
  amount : Int
  reference : String
  balanceBefore : Int
  balanceAfter : Int
deriving DecidableEq, Repr

/-- The datastore visible to one transfer attempt: user rows, account rows,
and the append-only list of persisted Transfer records. -/
structure LedgerState where
  users : List UserRow
  accounts : List Account
  transfers : List Transfer
deriving DecidableEq, Repr

/-- The `InitiateTransferInput` interface: sender user id, receiver handle,
amount. -/
structure InitiateTransferInput where
  sender : Nat
  receiver : String
  amount : Int
deriving DecidableEq, Repr

/-- Errors thrown inside a transfer attempt. `badRequest` models NestJS
`BadRequestException`; `dbError c` models a driver error whose `code`
property is the SQL state `c` (the retry loop tests for `'40001'`);
`insufficientFunds` / `accountNotFound` are the Ledger Mutator's business
failures; `runtimeError` models a thrown TypeError (e.g. reading a
property of a missing sender row). -/
inductive TransferError where
  | badRequest (msg : String)
  | insufficientFunds
  | accountNotFound
  | dbError (code : String)
  | runtimeError
deriving DecidableEq, Repr

/-- The `error.code` property read by the retry loop: only driver errors
carry a SQL-state code. -/
def errCode : TransferError → Option String
  | .dbError c => some c
  | _ => none

/-- Modelled from the spec: `UserService.findByUserId` is not under the
repository sources; per the spec it resolves a sender by identifier to an
identity record bearing its account. -/
def findByUserId (s : LedgerState) (userId : Nat) : Option Identity :=
  match s.users.find? (fun u => u.id == userId) with
  | none => none
  | some row =>
    match s.accounts.find? (fun a => a.id == row.accountId) with
    | none => none
    | some acc => some ⟨row.id, row.username, acc⟩

/-- Modelled from the spec: `UserService.findByUsername` is not under the
repository sources; per the spec it resolves a receiver by handle,
signalling not-found (here `none`) when the handle is unknown. -/
def findByUsername (s : LedgerState) (username : String) : Option Identity :=
  match s.users.find? (fun u => u.username == username) with
  | none => none
  | some row =>
    match s.accounts.find? (fun a => a.id == row.accountId) with
    | none => none
    | some acc => some ⟨row.id, row.username, acc⟩

/-- Modelled from the spec: `AccountService.debitAccount` is not under the
repository sources; per the spec, `debit(accountId, amount, tx)` returns
the account with its post-mutation balance (prior balance minus amount) or
fails with `InsufficientFunds` / `AccountNotFound`, inside the caller's
transaction scope. -/
def debitAccount (accounts : List Account) (accountId : Nat) (amount : Int) :
    Except TransferError (Account × List Account) :=
  match accounts.find? (fun a => a.id == accountId) with
  | none => .error .accountNotFound
  | some acc =>
    if acc.balance < amount then
      .error .insufficientFunds
    else
      let updated : Account := ⟨acc.id, acc.balance - amount⟩
      .ok (updated, accounts.map (fun a => if a.id == accountId then updated else a))

/-- Modelled from the spec: `AccountService.creditAccount` is not under the
repository sources; per the spec, `credit(accountId, amount, tx)` returns
the account with its post-mutation balance (prior balance plus amount) or
fails with `AccountNotFound`, inside the caller's transaction scope. -/
def creditAccount (accounts : List Account) (accountId : Nat) (amount : Int) :
    Except TransferError (Account × List Account) :=
  match accounts.find? (fun a => a.id == accountId) with
  | none => .error .accountNotFound
  | some acc =>
    let updated : Account := ⟨acc.id, acc.balance + amount⟩
    .ok (updated, accounts.map (fun a => if a.id == accountId then updated else a))

/-- The alphanumeric charset of the `randomstring` library: uppercase,
lowercase, digits — 62 characters. -/
def alphanumeric : List Char :=
  "ABCDEFGHIJKLMNOPQRSTUVWXYZabcdefghijklmnopqrstuvwxyz0123456789".toList

/-- Modelled from the spec: `randomstring.generate({length: 12, charset:
'alphanumeric'})` is an external injectable random-token source; it draws
12 characters from the alphanumeric charset using a random source `rand`.
The `callIdx` is the invocation counter: each call consumes 12 fresh
draws, so distinct invocations use disjoint portions of the source. -/
def randomstringGenerate (rand : Nat → Fin 62) (callIdx : Nat) : String :=
  ⟨(List.range 12).map (fun i => alphanumeric.getD (rand (12 * callIdx + i)).val 'a')⟩

/-- The body of `initiateTransfer`: one transfer attempt run inside a single
transaction. `reference` is the token produced by the per-attempt
`randomstring.generate` call. An `.error` result models a throw, after
which the transaction rolls back (see `runTransfer`); an `.ok` result
carries the committed state and the saved Transfer. Ordering follows the
source: sender lookup, receiver lookup, receiver null-check, balance
snapshot, debit, credit, record construction, save. -/
def initiateTransfer (reference : String) (s : LedgerState)
    (input : InitiateTransferInput) : Except TransferError (LedgerState × Transfer) :=
  let senderAccount? := findByUserId s input.sender
  match findByUsername s input.receiver with
  | none => .error (.badRequest "Recipient not found")
  | some receiverAccount =>
    match senderAccount? with
    | none => .error .runtimeError
    | some senderAccount =>
      let balanceBefore := senderAccount.account.balance
      match debitAccount s.accounts senderAccount.account.id input.amount with
      | .error e => .error e
      | .ok (updatedSenderAccount, accounts₁) =>
        match creditAccount accounts₁ receiverAccount.account.id input.amount with
        | .error e => .error e
        | .ok (_, accounts₂) =>
          let transfer : Transfer :=
            { sender := senderAccount
              receiver := receiverAccount
              amount := input.amount
              reference := reference
              balanceBefore := balanceBefore
              balanceAfter := updatedSenderAccount.balance }
          .ok ({ s with accounts := accounts₂, transfers := s.transfers ++ [transfer] }, transfer)

/-- The observable outcome of `datasource.transaction`: on `.ok` the new
state is committed and the saved Transfer returned; on `.error` the
transaction rolls back, so the pre-state is what remains observable and no
Transfer is returned. -/
def runTransfer (reference : String) (s : LedgerState)
    (input : InitiateTransferInput) : LedgerState × Option Transfer :=
  match initiateTransfer reference s input with
  | .ok (s', t) => (s', some t)
  | .error _ => (s, none)

/-- One attempt as issued by the retry wrapper: attempt number `attemptIdx`
opens a fresh transaction on the base state and generates its reference
with a fresh `randomstring.generate` invocation (invocation counter =
attempt index). -/
def attemptTransfer (rand : Nat → Fin 62) (s : LedgerState)
    (input : InitiateTransferInput) (attemptIdx : Nat) :
    Except TransferError (LedgerState × Transfer) :=
  initiateTransfer (randomstringGenerate rand attemptIdx) s input

/-- The observable outcome of one `initiateTransferWithRetry` run:
`result` is the resolved value (`none` models the promise resolving
`undefined`), `attempts` counts the `initiateTransfer` invocations made,
and `sleeps` records the backoff waits (ms) taken between attempts. -/
structure RetryTrace (α : Type) where
  result : Option α
  attempts : Nat
  sleeps : List Nat
deriving DecidableEq, Repr

/-- `initiateTransferWithRetry`, parameterised over the per-attempt outcome
(`attempt i` is what the `i`-th `initiateTransfer` call does; conflicts
arise from concurrent load, so they are supplied by this oracle). The
source: try the attempt and return its result on success; in the catch
block, if `error.code === '40001'` and `retries > 0`, sleep 100 ms and
recurse with `retries - 1`; otherwise fall through the catch block and
resolve `undefined` (`result = none`). -/
def initiateTransferWithRetry {α : Type} (attempt : Nat → Except TransferError α) :
    Nat → Nat → RetryTrace α
  | attemptIdx, 0 =>
    match attempt attemptIdx with
    | .ok t => ⟨some t, 1, []⟩
    | .error _ => ⟨none, 1, []⟩
  | attemptIdx, r + 1 =>
    match attempt attemptIdx with
    | .ok t => ⟨some t, 1, []⟩
    | .error e =>
      if errCode e = some "40001" then
        let rest := initiateTransferWithRetry attempt (attemptIdx + 1) r
        ⟨rest.result, rest.attempts + 1, 100 :: rest.sleeps⟩
      else ⟨none, 1, []⟩

/-- A transfer row as stored, seen by the query side: foreign keys to the
sender and receiver users and the store-assigned `createdAt` timestamp. -/
structure StoredTransfer where
  id : Nat
  senderId : Nat
  receiverId : Nat
  amount : Int
  createdAt : Nat
deriving DecidableEq, Repr

/-- The query object of `buildFilter`: the two optional period bounds.
`none` models an absent (or JS-falsy) field. -/
structure TransferQuery where
  startPeriodDatetime : Option Nat
  endPeriodDatetime : Option Nat
deriving DecidableEq, Repr

/-- The single `createdAt` slot of the filter object built by
`buildFilter`: the TypeORM operators it can hold, or no constraint. -/
inductive CreatedAtFilter where
  | empty
  | moreThanOrEqual (d : Nat)
  | lessThanOrEqual (d : Nat)
  | between (lo hi : Nat)
deriving DecidableEq, Repr

/-- `buildFilter`: three sequential conditional assignments to
`filter['createdAt']`, the later assignment overwriting the earlier one. -/
def buildFilter (query : TransferQuery) : CreatedAtFilter :=
  let filter := CreatedAtFilter.empty
  let filter := match query.startPeriodDatetime with
    | some s => CreatedAtFilter.moreThanOrEqual s
    | none => filter
  let filter := match query.endPeriodDatetime with
    | some e => CreatedAtFilter.lessThanOrEqual e
    | none => filter
  let filter := match query.startPeriodDatetime, query.endPeriodDatetime with
    | some s, some e => CreatedAtFilter.between s e
    | _, _ => filter
  filter

/-- Satisfaction of the `createdAt` filter by a timestamp, per the TypeORM
operators (`Between` is the closed range). -/
def matchesCreatedAt : CreatedAtFilter → Nat → Bool
  | .empty, _ => true
  | .moreThanOrEqual d, c => d ≤ c
  | .lessThanOrEqual d, c => c ≤ d
  | .between lo hi, c => lo ≤ c && c ≤ hi

/-- The WHERE clause of `find`. The viewer condition is passed to
`andWhere` as a raw string without parentheses, so the generated SQL is
`<createdAt-filter> AND senderId = :userId OR receiverId = :userId`,
which SQL operator precedence parses as
`(<createdAt-filter> AND senderId = :userId) OR receiverId = :userId`:
the date filter restricts only sender-side rows, and receiver-side rows
match regardless of it. -/
def transferMatches (userId : Nat) (filter : CreatedAtFilter) (t : StoredTransfer) : Bool :=
  (matchesCreatedAt filter t.createdAt && t.senderId == userId) || t.receiverId == userId

/-- The ordering of `find`: `ORDER BY transfer.createdAt DESC`. -/
def newerFirst (a b : StoredTransfer) : Prop :=
  b.createdAt ≤ a.createdAt

instance : DecidableRel newerFirst :=
  fun a b => inferInstanceAs (Decidable (b.createdAt ≤ a.createdAt))

instance : IsTotal StoredTransfer newerFirst :=
  ⟨fun a b => (Nat.le_total b.createdAt a.createdAt).elim Or.inl Or.inr⟩

instance : IsTrans StoredTransfer newerFirst :=
  ⟨fun _ _ _ hab hbc => Nat.le_trans hbc hab⟩

/-- The `pagination` argument of `find`: `skip` and `take`. -/
structure Pagination where
  skip : Nat
  take : Nat
deriving DecidableEq, Repr

/-- `find`: filter the stored transfers by the actual WHERE clause
(`transferMatches`, with the unparenthesized-OR precedence of the source),
order newest-first, and return the `skip`/`take` page together with the
count of the whole match set (`getManyAndCount` counts without the
pagination). -/
def find (transfers : List StoredTransfer) (currentUserId : Nat)
    (query : TransferQuery) (pagination : Pagination) :
    List StoredTransfer × Nat :=
  let filter := buildFilter query
  let matched := transfers.filter (transferMatches currentUserId filter)
  let ordered := List.insertionSort newerFirst matched
  (((ordered.drop pagination.skip).take pagination.take), matched.length)

/-- Sample ledger: user 1 "alice" owns account 10 (balance 500), user 2
"bob" owns account 20 (balance 50); no transfers yet. -/
def sampleState : LedgerState :=
  ⟨[⟨1, "alice", 10⟩, ⟨2, "bob", 20⟩], [⟨10, 500⟩, ⟨20, 50⟩], []⟩

/-- Sample input: user 1 sends 200 to handle "bob". -/
def sampleInput : InitiateTransferInput := ⟨1, "bob", 200⟩

/-- A concrete Transfer value used to exercise the retry wrapper. -/
def sampleTransfer : Transfer :=
  ⟨⟨1, "alice", ⟨10, 500⟩⟩, ⟨2, "bob", ⟨20, 50⟩⟩, 200, "REFERENCE001", 500, 300⟩

/-- A constant random source (always the first charset index). -/
def zeroRand : Nat → Fin 62 := fun _ => 0

/-- C10: buildFilter produces at most one createdAt condition, with
precedence: both bounds present gives the closed range Between(start,
end); only the end bound gives LessThanOrEqual(end); only the start bound
gives MoreThanOrEqual(start); neither gives no createdAt constraint. The
filter has a single createdAt slot (`CreatedAtFilter`), and the three
sequential assignments resolve to exactly these four outcomes. -/
theorem buildFilter_precedence (s e : Nat) :
    buildFilter ⟨some s, some e⟩ = .between s e ∧
    buildFilter ⟨some s, none⟩ = .moreThanOrEqual s ∧
    buildFilter ⟨none, some e⟩ = .lessThanOrEqual e ∧
    buildFilter ⟨none, none⟩ = .empty :=
  ⟨rfl, rfl, rfl, rfl⟩

/-- C2: evaluating the retry wrapper where every attempt fails with a
serialization-conflict error (code '40001') and retries = 3: the engine
makes 4 attempts, then the final conflict error is caught, the catch block
falls through, and the promise resolves `undefined` (result `none`) — the
final error is NOT propagated to the caller, contradicting the claim that
a terminal failure is surfaced. -/
theorem retry_exhaustion_swallows_error :
    initiateTransferWithRetry
        (fun _ => (.error (.dbError "40001") : Except TransferError Transfer)) 0 3 =
      ⟨none, 4, [100, 100, 100]⟩ := by
  decide

/-- C3: evaluating the retry wrapper where the attempt is a real
`initiateTransfer` against `sampleState` with the unknown receiver handle
"nouser": exactly one attempt is made and no retry or backoff occurs
(attempts = 1, sleeps = []), confirming the never-retried half of the
claim — but the `BadRequestException` is caught, the catch block falls
through (its code is not '40001'), and the promise resolves `undefined`
(result `none`) instead of propagating the business error, contradicting
the propagation half of the claim. -/
theorem business_error_one_attempt_swallowed :
    initiateTransferWithRetry
        (attemptTransfer zeroRand sampleState ⟨1, "nouser", 200⟩) 0 3 =
      ⟨none, 1, []⟩ := by
  decide

/-- Unfolding step: when the attempt succeeds, the wrapper returns the
result after exactly one attempt, whatever the remaining retries. -/
theorem retry_ok {α : Type} (attempt : Nat → Except TransferError α) (idx retries : Nat)
    (t : α) (h : attempt idx = .ok t) :
    initiateTransferWithRetry attempt idx retries = ⟨some t, 1, []⟩ := by
  cases retries with
  | zero => rw [initiateTransferWithRetry, h]
  | succ r => rw [initiateTransferWithRetry, h]

/-- Unfolding step: when the attempt fails with a conflict-coded error and
retries remain, the wrapper sleeps 100 ms and recurses on the next attempt
with one retry fewer. -/
theorem retry_conflict_step {α : Type} (attempt : Nat → Except TransferError α)
    (idx r : Nat) (e : TransferError) (h : attempt idx = .error e)
    (hcode : errCode e = some "40001") :
    initiateTransferWithRetry attempt idx (r + 1) =
      ⟨(initiateTransferWithRetry attempt (idx + 1) r).result,
       (initiateTransferWithRetry attempt (idx + 1) r).attempts + 1,
       100 :: (initiateTransferWithRetry attempt (idx + 1) r).sleeps⟩ := by
  rw [initiateTransferWithRetry, h]
  simp [hcode]

/-- Helper: if attempts `idx, idx+1, ..., idx+N-1` all fail with a
conflict-coded error, attempt `idx+N` succeeds with `t`, and at least `N`
retries are available, the retry wrapper returns `t` after `N+1` attempts
with `N` backoff sleeps of 100 ms. -/
theorem retry_conflict_run {α : Type} (attempt : Nat → Except TransferError α) (t : α)
    (N : Nat) : ∀ (idx retries : Nat), N ≤ retries →
    (∀ i, i < N → ∃ e, attempt (idx + i) = .error e ∧ errCode e = some "40001") →
    attempt (idx + N) = .ok t →
    initiateTransferWithRetry attempt idx retries = ⟨some t, N + 1, List.replicate N 100⟩ := by
  induction N with
  | zero =>
    intro idx retries _ _ hok
    rw [Nat.add_zero] at hok
    exact retry_ok attempt idx retries t hok
  | succ N ih =>
    intro idx retries hN hconf hok
    obtain ⟨e, he, hcode⟩ := hconf 0 (Nat.succ_pos N)
    rw [Nat.add_zero] at he
    obtain ⟨r, rfl⟩ : ∃ r, retries = r + 1 := ⟨retries - 1, by omega⟩
    have hconf' : ∀ i, i < N → ∃ e', attempt (idx + 1 + i) = .error e' ∧
        errCode e' = some "40001" := by
      intro i hi
      obtain ⟨e', he', hc'⟩ := hconf (i + 1) (by omega)
      exact ⟨e', by rw [show idx + 1 + i = idx + (i + 1) from by omega]; exact he', hc'⟩
    have hok' : attempt (idx + 1 + N) = .ok t := by
      rw [show idx + 1 + N = idx + (N + 1) from by omega]; exact hok
    have hrest := ih (idx + 1) r (by omega) hconf' hok'
    rw [retry_conflict_step attempt idx r e he hcode, hrest]
    simp [List.replicate_succ]

/-- C4: if an attempt fails with an error coded '40001' and retries remain,
the wrapper records one fixed 100 ms backoff sleep and re-invokes itself
with retries - 1 (first conjunct); consequently, given conflict errors on
the first N attempts (N < maxRetries) and success on attempt N+1, it
returns the successful Transfer, makes exactly N+1 attempts, and sleeps
100 ms between consecutive attempts (second conjunct). -/
theorem retry_on_conflict_backoff :
    (∀ (attempt : Nat → Except TransferError Transfer) (e : TransferError) (idx r : Nat),
      attempt idx = .error e → errCode e = some "40001" → 0 < r →
      initiateTransferWithRetry attempt idx r =
        ⟨(initiateTransferWithRetry attempt (idx + 1) (r - 1)).result,
         (initiateTransferWithRetry attempt (idx + 1) (r - 1)).attempts + 1,
         100 :: (initiateTransferWithRetry attempt (idx + 1) (r - 1)).sleeps⟩) ∧
    (∀ (attempt : Nat → Except TransferError Transfer) (t : Transfer) (N maxRetries : Nat),
      N < maxRetries →
      (∀ i, i < N → ∃ e, attempt i = .error e ∧ errCode e = some "40001") →
      attempt N = .ok t →
      initiateTransferWithRetry attempt 0 maxRetries = ⟨some t, N + 1, List.replicate N 100⟩) := by
  constructor
  · intro attempt e idx r he hcode hr
    obtain ⟨r', rfl⟩ : ∃ r', r = r' + 1 := ⟨r - 1, by omega⟩
    simpa using retry_conflict_step attempt idx r' e he hcode
  · intro attempt t N maxRetries hN hconf hok
    exact retry_conflict_run attempt t N 0 maxRetries (by omega)
      (by intro i hi; simpa using hconf i hi) (by simpa using hok)

/-- C4 witness: with an attempt oracle that conflicts on attempts 0 and 1
and succeeds on attempt 2, and maxRetries = 3, the wrapper returns the
successful Transfer after exactly 3 attempts with two 100 ms sleeps. -/
theorem retry_on_conflict_backoff_witness :
    initiateTransferWithRetry
        (fun i => if i < 2 then .error (.dbError "40001") else .ok sampleTransfer) 0 3 =
      ⟨some sampleTransfer, 3, [100, 100]⟩ := by
  have h := retry_on_conflict_backoff.2
    (fun i => if i < 2 then .error (.dbError "40001") else .ok sampleTransfer)
    sampleTransfer 2 3 (by omega)
    (by
      intro i hi
      exact ⟨.dbError "40001", by simp [hi], rfl⟩)
    (by simp)
  simpa using h

/-- Inversion of a successful attempt: a committed transfer determines the
resolved identities, the debit on the sender's account, the credit applied
to the post-debit account list, the exact Transfer record constructed, and
the committed state (accounts after both mutations, transfers with the
record appended). -/
theorem initiateTransfer_ok_inv (reference : String) (s : LedgerState)
    (input : InitiateTransferInput) (s' : LedgerState) (t : Transfer)
    (h : initiateTransfer reference s input = .ok (s', t)) :
    ∃ senderAccount receiverAccount upd accounts₁ recvUpd accounts₂,
      findByUserId s input.sender = some senderAccount ∧
      findByUsername s input.receiver = some receiverAccount ∧
      debitAccount s.accounts senderAccount.account.id input.amount = .ok (upd, accounts₁) ∧
      creditAccount accounts₁ receiverAccount.account.id input.amount = .ok (recvUpd, accounts₂) ∧
      t = ⟨senderAccount, receiverAccount, input.amount, reference,
           senderAccount.account.balance, upd.balance⟩ ∧
      s' = ⟨s.users, accounts₂, s.transfers ++ [t]⟩ := by
  simp only [initiateTransfer] at h
  split at h
  · exact absurd h (by simp)
  rename_i receiverAccount hrecv
  split at h
  · exact absurd h (by simp)
  rename_i senderAccount hsender
  split at h
  · exact absurd h (by simp)
  rename_i debres upd accounts₁ hdebit
  split at h
  · exact absurd h (by simp)
  rename_i credres recvUpd accounts₂ hcredit
  rw [Except.ok.injEq, Prod.mk.injEq] at h
  obtain ⟨hs', ht⟩ := h
  exact ⟨senderAccount, receiverAccount, upd, accounts₁, recvUpd, accounts₂,
    hsender, hrecv, hdebit, hcredit, ht.symm, by rw [← hs', ht]⟩

/-- Inversion of a successful debit: the account was found, had sufficient
balance, and the returned account carries the prior balance minus the
amount. -/
theorem debitAccount_ok_inv (accounts : List Account) (accountId : Nat) (amount : Int)
    (upd : Account) (accounts₁ : List Account)
    (h : debitAccount accounts accountId amount = .ok (upd, accounts₁)) :
    ∃ acc, accounts.find? (fun a => a.id == accountId) = some acc ∧
      ¬ acc.balance < amount ∧ upd = ⟨acc.id, acc.balance - amount⟩ ∧
      accounts₁ = accounts.map (fun a => if a.id == accountId then upd else a) := by
  simp only [debitAccount] at h
  split at h
  · exact absurd h (by simp)
  rename_i acc hfind
  split at h
  · exact absurd h (by simp)
  rename_i hbal
  rw [Except.ok.injEq, Prod.mk.injEq] at h
  obtain ⟨hupd, haccs⟩ := h
  exact ⟨acc, hfind, hbal, hupd.symm, by rw [← haccs, hupd]⟩

/-- The account embedded in an identity returned by `findByUserId` is the
one the account list's `find?` returns for that account id. -/
theorem findByUserId_account_find (s : LedgerState) (userId : Nat) (ident : Identity)
    (h : findByUserId s userId = some ident) :
    s.accounts.find? (fun a => a.id == ident.account.id) = some ident.account := by
  simp only [findByUserId] at h
  split at h
  · exact absurd h (by simp)
  rename_i row hrow
  split at h
  · exact absurd h (by simp)
  rename_i acc hacc
  rw [Option.some.injEq] at h
  have hid : acc.id = row.accountId := by
    have := List.find?_some hacc
    simpa using this
  subst h
  simpa [hid] using hacc

/-- C6: if the receiver handle cannot be resolved, the attempt fails with
the `BadRequestException` "Recipient not found" thrown before any mutation
is issued, the transaction rolls back, and the observable state is exactly
the pre-state: no debit, no credit, no Transfer record, both balances
unchanged. -/
theorem recipient_not_found_no_side_effects (reference : String) (s : LedgerState)
    (input : InitiateTransferInput)
    (hrecv : findByUsername s input.receiver = none) :
    initiateTransfer reference s input = .error (.badRequest "Recipient not found") ∧
    runTransfer reference s input = (s, none) := by
  have h1 : initiateTransfer reference s input = .error (.badRequest "Recipient not found") := by
    simp only [initiateTransfer, hrecv]
  exact ⟨h1, by rw [runTransfer, h1]⟩

/-- C6 witness: transferring to the unknown handle "nouser" from the sample
ledger fails with RecipientNotFound and leaves the state unchanged. -/
theorem recipient_not_found_no_side_effects_witness :
    initiateTransfer "REFERENCE001" sampleState ⟨1, "nouser", 200⟩ =
      .error (.badRequest "Recipient not found") ∧
    runTransfer "REFERENCE001" sampleState ⟨1, "nouser", 200⟩ = (sampleState, none) :=
  recipient_not_found_no_side_effects "REFERENCE001" sampleState ⟨1, "nouser", 200⟩ (by decide)

/-- C5: on a successful attempt, the persisted record's balanceBefore is
the sender account's balance as read in the transaction prior to the
debit, its balanceAfter is the post-debit balance returned by the debit
call, and balanceAfter = balanceBefore - amount holds on the record. -/
theorem transfer_balance_snapshot (reference : String) (s : LedgerState)
    (input : InitiateTransferInput) (s' : LedgerState) (t : Transfer)
    (h : initiateTransfer reference s input = .ok (s', t)) :
    (∃ senderAccount, findByUserId s input.sender = some senderAccount ∧
      t.balanceBefore = senderAccount.account.balance) ∧
    (∃ upd accounts₁, debitAccount s.accounts t.sender.account.id input.amount =
        .ok (upd, accounts₁) ∧ t.balanceAfter = upd.balance) ∧
    t.balanceAfter = t.balanceBefore - t.amount := by
  obtain ⟨senderAccount, receiverAccount, upd, accounts₁, recvUpd, accounts₂,
    hsender, hrecv, hdebit, hcredit, ht, hs'⟩ :=
    initiateTransfer_ok_inv reference s input s' t h
  subst ht
  refine ⟨⟨senderAccount, hsender, rfl⟩, ⟨upd, accounts₁, hdebit, rfl⟩, ?_⟩
  obtain ⟨acc, hfind, _, hupd, _⟩ :=
    debitAccount_ok_inv s.accounts senderAccount.account.id input.amount upd accounts₁ hdebit
  have hacc : acc = senderAccount.account := by
    have := findByUserId_account_find s input.sender senderAccount hsender
    rw [hfind] at this
    exact (Option.some.injEq _ _).mp this
  subst hacc
  rw [hupd]

/-- C5 witness: the sample transfer (sender balance 500, amount 200)
persists balanceBefore 500 and balanceAfter 300 = 500 - 200. -/
theorem transfer_balance_snapshot_witness :
    (∃ senderAccount, findByUserId sampleState sampleInput.sender = some senderAccount ∧
      sampleTransfer.balanceBefore = senderAccount.account.balance) ∧
    (∃ upd accounts₁, debitAccount sampleState.accounts sampleTransfer.sender.account.id
        sampleInput.amount = .ok (upd, accounts₁) ∧
      sampleTransfer.balanceAfter = upd.balance) ∧
    sampleTransfer.balanceAfter = sampleTransfer.balanceBefore - sampleTransfer.amount :=
  transfer_balance_snapshot "REFERENCE001" sampleState sampleInput
    ⟨sampleState.users, [⟨10, 300⟩, ⟨20, 250⟩], [sampleTransfer]⟩ sampleTransfer (by rfl)

/-- C8: the engine persists the input amount verbatim, so every record
persisted for an accepted input (one satisfying the data-model invariant
amount > 0; the validation layer is outside the engine) has a positive
amount. -/
theorem transfer_amount_positive (reference : String) (s : LedgerState)
    (input : InitiateTransferInput) (s' : LedgerState) (t : Transfer)
    (hpos : 0 < input.amount)
    (h : initiateTransfer reference s input = .ok (s', t)) :
    t.amount = input.amount ∧ 0 < t.amount := by
  obtain ⟨senderAccount, receiverAccount, upd, accounts₁, recvUpd, accounts₂,
    _, _, _, _, ht, _⟩ := initiateTransfer_ok_inv reference s input s' t h
  subst ht
  exact ⟨rfl, hpos⟩

/-- C8 witness: the sample transfer of amount 200 > 0 persists amount
200 > 0. -/
theorem transfer_amount_positive_witness :
    sampleTransfer.amount = sampleInput.amount ∧ 0 < sampleTransfer.amount :=
  transfer_amount_positive "REFERENCE001" sampleState sampleInput
    ⟨sampleState.users, [⟨10, 300⟩, ⟨20, 250⟩], [sampleTransfer]⟩ sampleTransfer
    (by decide) (by rfl)

/-- The alphanumeric charset has 62 characters. -/
theorem alphanumeric_length : alphanumeric.length = 62 := rfl

/-- Every generated token has fixed length 12. -/
theorem randomstringGenerate_length (rand : Nat → Fin 62) (callIdx : Nat) :
    (randomstringGenerate rand callIdx).length = 12 := by
  simp [randomstringGenerate, String.length]

/-- Every character of a generated token is drawn from the alphanumeric
charset. -/
theorem randomstringGenerate_mem (rand : Nat → Fin 62) (callIdx : Nat) :
    ∀ c ∈ (randomstringGenerate rand callIdx).data, c ∈ alphanumeric := by
  intro c hc
  simp only [randomstringGenerate, List.mem_map, List.mem_range] at hc
  obtain ⟨i, _, rfl⟩ := hc
  have hlt : (rand (12 * callIdx + i)).val < alphanumeric.length := by
    rw [alphanumeric_length]
    exact (rand (12 * callIdx + i)).isLt
  rw [List.getD_eq_getElem alphanumeric 'a' hlt]
  exact List.getElem_mem hlt

/-- C7: on any successful attempt, the persisted reference is exactly the
token produced by that attempt's own `randomstring.generate` invocation
(invocation counter = attempt index), so a retried attempt generates its
reference anew from fresh random draws instead of reusing the previous
attempt's token; the token has fixed length 12 and every character is
drawn from the alphanumeric charset. -/
theorem transfer_reference_fresh (rand : Nat → Fin 62) (s : LedgerState)
    (input : InitiateTransferInput) (attemptIdx : Nat) (s' : LedgerState) (t : Transfer)
    (h : attemptTransfer rand s input attemptIdx = .ok (s', t)) :
    t.reference = randomstringGenerate rand attemptIdx ∧
    t.reference.length = 12 ∧
    ∀ c ∈ t.reference.data, c ∈ alphanumeric := by
  rw [attemptTransfer] at h
  obtain ⟨senderAccount, receiverAccount, upd, accounts₁, recvUpd, accounts₂,
    _, _, _, _, ht, _⟩ :=
    initiateTransfer_ok_inv (randomstringGenerate rand attemptIdx) s input s' t h
  subst ht
  exact ⟨rfl, randomstringGenerate_length rand attemptIdx,
    randomstringGenerate_mem rand attemptIdx⟩

/-- The Transfer committed by attempt 0 against the sample ledger under the
constant random source (its token is 12 copies of charset index 0). -/
def sampleGeneratedTransfer : Transfer :=
  ⟨⟨1, "alice", ⟨10, 500⟩⟩, ⟨2, "bob", ⟨20, 50⟩⟩, 200, "AAAAAAAAAAAA", 500, 300⟩

/-- C7 witness: attempt 0 on the sample ledger persists the token of
generator invocation 0, of length 12, all characters alphanumeric. -/
theorem transfer_reference_fresh_witness :
    sampleGeneratedTransfer.reference = randomstringGenerate zeroRand 0 ∧
    sampleGeneratedTransfer.reference.length = 12 ∧
    ∀ c ∈ sampleGeneratedTransfer.reference.data, c ∈ alphanumeric :=
  transfer_reference_fresh zeroRand sampleState sampleInput 0
    ⟨sampleState.users, [⟨10, 300⟩, ⟨20, 250⟩], [sampleGeneratedTransfer]⟩
    sampleGeneratedTransfer (by rfl)

/-- C1: atomicity of one attempt. When the transaction commits, the new
observable state simultaneously carries the Transfer record appended to
the store, the sender debit, and the receiver credit — the credit applied
to the post-debit account list, so it is issued only after the debit
succeeded, and the record is persisted in the same transaction as both
mutations. When anything inside the transaction fails, the observable
state is exactly the pre-state: no record and no balance mutation. Hence a
Transfer record appears in the store iff both the debit and the credit
were applied. -/
theorem initiateTransfer_atomic (reference : String) (s : LedgerState)
    (input : InitiateTransferInput) :
    (∀ s' t, runTransfer reference s input = (s', some t) →
      s'.transfers = s.transfers ++ [t] ∧
      ∃ senderAccount receiverAccount upd accounts₁ recvUpd,
        findByUserId s input.sender = some senderAccount ∧
        findByUsername s input.receiver = some receiverAccount ∧
        debitAccount s.accounts senderAccount.account.id input.amount =
          .ok (upd, accounts₁) ∧
        creditAccount accounts₁ receiverAccount.account.id input.amount =
          .ok (recvUpd, s'.accounts)) ∧
    (∀ s', runTransfer reference s input = (s', none) → s' = s) := by
  constructor
  · intro s' t hrun
    rw [runTransfer] at hrun
    cases hinit : initiateTransfer reference s input with
    | error e => rw [hinit] at hrun; simp at hrun
    | ok p =>
      obtain ⟨s₁, t₁⟩ := p
      rw [hinit] at hrun
      rw [Prod.mk.injEq, Option.some.injEq] at hrun
      obtain ⟨rfl, rfl⟩ := hrun
      obtain ⟨senderAccount, receiverAccount, upd, accounts₁, recvUpd, accounts₂,
        hsender, hrecv, hdebit, hcredit, ht, hs₁⟩ :=
        initiateTransfer_ok_inv reference s input s₁ t₁ hinit
      subst hs₁
      exact ⟨rfl, senderAccount, receiverAccount, upd, accounts₁, recvUpd,
        hsender, hrecv, hdebit, hcredit⟩
  · intro s' hrun
    rw [runTransfer] at hrun
    cases hinit : initiateTransfer reference s input with
    | error e =>
      rw [hinit] at hrun
      rw [Prod.mk.injEq] at hrun
      exact hrun.1.symm
    | ok p =>
      rw [hinit] at hrun
      rw [Prod.mk.injEq] at hrun
      exact absurd hrun.2 (by simp)

/-- C1 witness: the sample transfer commits with the record appended and
both balance mutations applied (sender 500 → 300 debited, receiver
50 → 250 credited in the committed account list). -/
theorem initiateTransfer_atomic_witness :
    (⟨sampleState.users, [⟨10, 300⟩, ⟨20, 250⟩], [sampleTransfer]⟩ : LedgerState).transfers =
      sampleState.transfers ++ [sampleTransfer] ∧
    ∃ senderAccount receiverAccount upd accounts₁ recvUpd,
      findByUserId sampleState sampleInput.sender = some senderAccount ∧
      findByUsername sampleState sampleInput.receiver = some receiverAccount ∧
      debitAccount sampleState.accounts senderAccount.account.id sampleInput.amount =
        .ok (upd, accounts₁) ∧
      creditAccount accounts₁ receiverAccount.account.id sampleInput.amount =
        .ok (recvUpd,
          (⟨sampleState.users, [⟨10, 300⟩, ⟨20, 250⟩], [sampleTransfer]⟩ : LedgerState).accounts) :=
  (initiateTransfer_atomic "REFERENCE001" sampleState sampleInput).1
    ⟨sampleState.users, [⟨10, 300⟩, ⟨20, 250⟩], [sampleTransfer]⟩ sampleTransfer (by rfl)

/-- C9 counterexample: with viewer 1, date range [10, 20], and a store
holding one transfer {senderId 3, receiverId 1, createdAt 5}, the view
returns that receiver-side row and counts it, although its createdAt lies
outside the built date-range filter. The raw-string `andWhere` of the
source is inserted without parentheses, so the WHERE clause is
`(dateFilter AND senderId = :u) OR receiverId = :u` and receiver-side
rows bypass the date filter — refuting the claim that the returned set is
restricted by the date-range filter. -/
theorem find_receiver_bypasses_date_filter :
    find [⟨1, 3, 1, 200, 5⟩] 1 ⟨some 10, some 20⟩ ⟨0, 10⟩ =
      ([⟨1, 3, 1, 200, 5⟩], 1) ∧
    matchesCreatedAt (buildFilter ⟨some 10, some 20⟩)
      (⟨1, 3, 1, 200, 5⟩ : StoredTransfer).createdAt = false := by
  decide

/-- C9 amended: the query view returns only transfers drawn from the store
in which the viewer is the sender or the receiver, ordered newest-first
(non-increasing createdAt), and the returned count is the size of the
whole match set, unaffected by the offset/limit pagination of the
returned page; however the date-range filter restricts only the rows
where the viewer is the sender — a row where the viewer is the receiver
is returned (and counted) regardless of the date range, because the
unparenthesized raw-string viewer condition gives the WHERE clause
`(dateFilter AND senderId = :u) OR receiverId = :u`. -/
theorem find_query_view_amended (transfers : List StoredTransfer) (currentUserId : Nat)
    (query : TransferQuery) (pagination : Pagination) :
    (∀ t ∈ (find transfers currentUserId query pagination).1,
      t ∈ transfers ∧
      (t.senderId = currentUserId ∨ t.receiverId = currentUserId) ∧
      (t.receiverId = currentUserId ∨
        (t.senderId = currentUserId ∧
          matchesCreatedAt (buildFilter query) t.createdAt = true))) ∧
    List.Pairwise newerFirst (find transfers currentUserId query pagination).1 ∧
    (find transfers currentUserId query pagination).2 =
      (transfers.filter (transferMatches currentUserId (buildFilter query))).length ∧
    (∀ p', (find transfers currentUserId query p').2 =
      (find transfers currentUserId query pagination).2) := by
  refine ⟨?_, ?_, rfl, fun p' => rfl⟩
  · intro t ht
    simp only [find] at ht
    have h1 : t ∈ List.insertionSort newerFirst
        (transfers.filter (transferMatches currentUserId (buildFilter query))) :=
      List.mem_of_mem_drop (List.mem_of_mem_take ht)
    have h2 : t ∈ transfers.filter (transferMatches currentUserId (buildFilter query)) :=
      (List.mem_insertionSort newerFirst).mp h1
    rw [List.mem_filter] at h2
    obtain ⟨hmem, hmatch⟩ := h2
    rw [transferMatches, Bool.or_eq_true] at hmatch
    rcases hmatch with h | h
    · rw [Bool.and_eq_true] at h
      exact ⟨hmem, Or.inl (by simpa using h.2), Or.inr ⟨by simpa using h.2, h.1⟩⟩
    · exact ⟨hmem, Or.inr (by simpa using h), Or.inl (by simpa using h)⟩
  · have hsorted : List.Pairwise newerFirst (List.insertionSort newerFirst
        (transfers.filter (transferMatches currentUserId (buildFilter query)))) :=
      List.sorted_insertionSort newerFirst _
    exact hsorted.sublist ((List.take_sublist _ _).trans (List.drop_sublist _ _))

/-- C9 amended witness: on a two-row store where row 1 is sender-side for
viewer 1 inside the (absent) date range and row 2 involves other users,
the view returns row 1 with the viewer and filter facts instantiated, and
counts exactly the one match. -/
theorem find_query_view_amended_witness :
    ((⟨1, 1, 2, 200, 5⟩ : StoredTransfer) ∈
        [(⟨1, 1, 2, 200, 5⟩ : StoredTransfer), ⟨2, 3, 4, 50, 9⟩] ∧
      ((⟨1, 1, 2, 200, 5⟩ : StoredTransfer).senderId = 1 ∨
        (⟨1, 1, 2, 200, 5⟩ : StoredTransfer).receiverId = 1) ∧
      ((⟨1, 1, 2, 200, 5⟩ : StoredTransfer).receiverId = 1 ∨
        ((⟨1, 1, 2, 200, 5⟩ : StoredTransfer).senderId = 1 ∧
          matchesCreatedAt (buildFilter ⟨none, none⟩)
            (⟨1, 1, 2, 200, 5⟩ : StoredTransfer).createdAt = true))) ∧
    (find [⟨1, 1, 2, 200, 5⟩, ⟨2, 3, 4, 50, 9⟩] 1 ⟨none, none⟩ ⟨0, 10⟩).2 = 1 := by
  have h := find_query_view_amended [⟨1, 1, 2, 200, 5⟩, ⟨2, 3, 4, 50, 9⟩] 1 ⟨none, none⟩ ⟨0, 10⟩
  exact ⟨h.1 ⟨1, 1, 2, 200, 5⟩ (by decide), by rw [h.2.2.1]; rfl⟩

end TransferService
